import Mathlib

/-!
Verification of the conversation/version state machine of the chatbot client.

The definitions below are a shallow embedding of the Redux slice in
`src/client/chatSlice.ts` and of the navigation hook in
`src/client/hooks/useMessageActions.ts`.  Reducers become pure functions on an
explicit `ChatState`; values produced at dispatch time by the JavaScript
runtime (`new Date().toISOString()` and `generateId()`) are passed in as
explicit `now` / `newId` arguments.  Async thunks are split into their
`pending` / `fulfilled` / `rejected` reducers plus, where a claim needs it, a
pure model of the guard logic in the thunk body.
-/

namespace Chatbot

/- ## List helpers

`updateFirst p f l` replaces the first element of `l` satisfying `p` by its
image under `f`.  It models the idiom `const x = list.find(p); x.field = v`
used throughout the slice: Immer applies such a mutation to the first match
and leaves the rest of the list unchanged.  `modifyAt` models an indexed
in-place update `list[i].field = v`. -/

def updateFirst (p : α → Bool) (f : α → α) : List α → List α
  | [] => []
  | x :: xs => if p x then f x :: xs else x :: updateFirst p f xs

def modifyAt (f : α → α) : Nat → List α → List α
  | _, [] => []
  | 0, x :: xs => f x :: xs
  | n + 1, x :: xs => x :: modifyAt f n xs

/-- The index of the first element satisfying `p`, if any: the TS
`list.findIndex(p)` with its -1 result mapped to `none`. -/
def findIndexOpt (p : α → Bool) : List α → Option Nat
  | [] => none
  | x :: xs => if p x then some 0 else (findIndexOpt p xs).map (fun i => i + 1)

/-- Concatenation of a list of strings, in order (the total text produced by a
sequence of stream chunks). -/
def concatAll : List String → String
  | [] => ""
  | s :: ss => s ++ concatAll ss

/- ## Data model (`chatSlice.ts` lines 7-46) -/

/-- A file attachment, mirroring the `FileData` type in `chatSlice.ts`. -/
structure FileData where
  data : String
  mime_type : String
  filename : String
  url : Option String
deriving DecidableEq

/-- The sender tag of a message (the TS union type of 'User' and 'Bot'). -/
inductive Sender where
  | User
  | Bot
deriving DecidableEq

/-- The fields of a chat message, with branch tails abstracted over the
message type itself: the source field `branches` of type `Message[][]` makes
`Message` recursive, so the knot is tied by the inductive below.  Optional TS
fields become `Option`. -/
structure MessageCore (M : Type) where
  id : String
  sender : Sender
  text : String
  files : Option (List FileData)
  isStreaming : Option Bool
  timestamp : String
  isEditing : Option Bool
  responses : Option (List String)
  currentResponseIndex : Option Nat
  edits : Option (List String)
  currentEditIndex : Option Nat
  branches : Option (List (List M))
  currentBranchIndex : Option Nat

/-- A chat message, mirroring the `Message` type in `chatSlice.ts`. -/
inductive Message where
  | mk : MessageCore Message → Message

/-- Projection to the field record of a message. -/
def Message.core : Message → MessageCore Message
  | .mk c => c

def Message.id (m : Message) : String := m.core.id

def Message.sender (m : Message) : Sender := m.core.sender

def Message.text (m : Message) : String := m.core.text

def Message.files (m : Message) : Option (List FileData) := m.core.files

def Message.isStreaming (m : Message) : Option Bool := m.core.isStreaming

def Message.timestamp (m : Message) : String := m.core.timestamp

def Message.isEditing (m : Message) : Option Bool := m.core.isEditing

def Message.responses (m : Message) : Option (List String) := m.core.responses

def Message.currentResponseIndex (m : Message) : Option Nat := m.core.currentResponseIndex

def Message.edits (m : Message) : Option (List String) := m.core.edits

def Message.currentEditIndex (m : Message) : Option Nat := m.core.currentEditIndex

def Message.branches (m : Message) : Option (List (List Message)) := m.core.branches

def Message.currentBranchIndex (m : Message) : Option Nat := m.core.currentBranchIndex

/-- A conversation, mirroring the `Conversation` type in `chatSlice.ts`. -/
structure Conversation where
  id : String
  title : String
  messages : List Message
  model : String
  createdAt : String
  updatedAt : String

/-- Model metadata, mirroring `ModelInfo` in `chatSlice.ts`. -/
structure ModelInfo where
  name : String
  display_name : String
  description : String
  supports_vision : Bool
  supports_files : Bool
  provider : String
deriving DecidableEq

/-- One entry of `state.imageHistory`. -/
structure ImageHistoryItem where
  prompt : String
  url : String
  timestamp : String
deriving DecidableEq

/-- The `activeTool` union of 'chat', 'search' and 'image'. -/
inductive Tool where
  | chat
  | search
  | image
deriving DecidableEq

/-- The Redux state of the slice (`ChatState`, `chatSlice.ts` lines 48-70). -/
structure ChatState where
  conversations : List Conversation
  activeConversationId : Option String
  input : String
  isLoading : Bool
  error : Option String
  streamingMessageIndex : Option Nat
  selectedModel : String
  availableModels : List ModelInfo
  modelsLoading : Bool
  modelsError : Option String
  searchResults : List String
  searchLoading : Bool
  searchError : Option String
  generatedImageUrl : Option String
  imageLoading : Bool
  imageError : Option String
  imageHistory : List ImageHistoryItem
  currentImageIndex : Option Nat
  activeTool : Tool

/-- The initial state (`chatSlice.ts` lines 72-92). -/
def initialState : ChatState :=
  { conversations := []
    activeConversationId := none
    input := ""
    isLoading := false
    error := none
    streamingMessageIndex := none
    selectedModel := "mistral-large"
    availableModels := []
    modelsLoading := false
    modelsError := none
    searchResults := []
    searchLoading := false
    searchError := none
    generatedImageUrl := none
    imageLoading := false
    imageError := none
    imageHistory := []
    currentImageIndex := none
    activeTool := Tool.chat }

/-- The predicate of the lookup `state.conversations.find(conv => conv.id ===
state.activeConversationId)`: a strict comparison of a string id with a
possibly null active id. -/
def isActiveConv (st : ChatState) (c : Conversation) : Bool :=
  match st.activeConversationId with
  | some aid => c.id == aid
  | none => false

/-- The active conversation, if its id occurs in the collection. -/
def activeConv? (st : ChatState) : Option Conversation :=
  st.conversations.find? (isActiveConv st)

/-- JavaScript `a || d` on strings wrapped in `Option`: the empty string is
falsy, so it also falls back to the default. -/
def jsOr (s : Option String) (d : String) : String :=
  match s with
  | some v => if v == "" then d else v
  | none => d

/- ## Synchronous reducers (`chatSlice.ts` lines 452-727) -/

/-- `setUserBranchIndex` (lines 509-518): records a chosen branch index on a
message; no-op when the conversation, the message or its `branches` list is
missing. -/
def setUserBranchIndex (st : ChatState) (messageId : String) (branchIndex : Nat) : ChatState :=
  match activeConv? st with
  | none => st
  | some conv =>
    match conv.messages.find? (fun m => m.id == messageId) with
    | none => st
    | some msg =>
      match msg.branches with
      | none => st
      | some _ =>
        { st with
          conversations := updateFirst (isActiveConv st)
            (fun c =>
              { c with
                messages := updateFirst (fun m => m.id == messageId)
                  (fun m => Message.mk { m.core with currentBranchIndex := some branchIndex })
                  c.messages })
            st.conversations }

/-- `replaceConversationTail` (lines 519-531): overwrites the message list of
the named conversation with `head ++ tail`. -/
def replaceConversationTail (st : ChatState) (now : String)
    (conversationId : String) (head tail : List Message) : ChatState :=
  match st.conversations.find? (fun c => c.id == conversationId) with
  | none => st
  | some _ =>
    { st with
      conversations := updateFirst (fun c => c.id == conversationId)
        (fun c => { c with messages := head ++ tail, updatedAt := now })
        st.conversations }

/-- `addMessage` (lines 538-547): appends a message; a conversation still
titled "New Chat" takes its title from a first user message, truncated to 30
characters with an ellipsis appended when longer. -/
def addMessage (st : ChatState) (now : String) (conversationId : String)
    (message : Message) : ChatState :=
  match st.conversations.find? (fun c => c.id == conversationId) with
  | none => st
  | some _ =>
    { st with
      conversations := updateFirst (fun c => c.id == conversationId)
        (fun c =>
          let c1 := { c with messages := c.messages ++ [message], updatedAt := now }
          if c1.title == "New Chat" && message.sender == Sender.User then
            { c1 with
              title := message.text.take 30
                ++ (if message.text.length > 30 then "..." else "") }
          else c1)
        st.conversations }

/-- The bot message object created by `addBotMessage`: only the five listed
fields are present in the TS literal, every other optional field is absent. -/
def freshBotMessage (newId now text : String) : Message :=
  Message.mk
    { id := newId, sender := Sender.Bot, text := text, files := none,
      isStreaming := some true, timestamp := now, isEditing := none,
      responses := none, currentResponseIndex := none, edits := none,
      currentEditIndex := none, branches := none, currentBranchIndex := none }

/-- `addBotMessage` (lines 578-592): appends a streaming bot placeholder to
the active conversation and records its index as the streaming pointer. -/
def addBotMessage (st : ChatState) (now newId : String) (text : String) : ChatState :=
  match activeConv? st with
  | none => st
  | some conv =>
    { st with
      conversations := updateFirst (isActiveConv st)
        (fun c =>
          { c with
            messages := c.messages ++ [freshBotMessage newId now text],
            updatedAt := now })
        st.conversations,
      -- `conversation.messages.length - 1` after the push equals the length before it
      streamingMessageIndex := some conv.messages.length }

/-- `appendToLastBotMessage` (lines 593-599): concatenates a chunk onto the
pointed message; no-op when there is no active conversation or no pointer. -/
def appendToLastBotMessage (st : ChatState) (now chunk : String) : ChatState :=
  match activeConv? st, st.streamingMessageIndex with
  | some _, some i =>
    { st with
      conversations := updateFirst (isActiveConv st)
        (fun c => { c with
            messages := modifyAt
              (fun m => Message.mk { m.core with text := m.core.text ++ chunk }) i c.messages,
            updatedAt := now })
        st.conversations }
  | _, _ => st

/-- `finishStreaming` (lines 600-607): clears `isStreaming` on the pointed
message and resets the pointer; no-op when either is missing. -/
def finishStreaming (st : ChatState) (now : String) : ChatState :=
  match activeConv? st, st.streamingMessageIndex with
  | some _, some i =>
    { st with
      conversations := updateFirst (isActiveConv st)
        (fun c => { c with
            messages := modifyAt
              (fun m => Message.mk { m.core with isStreaming := some false }) i c.messages,
            updatedAt := now })
        st.conversations,
      streamingMessageIndex := none }
  | _, _ => st

/-- `updateMessageAndTruncate` (lines 617-646): seeds `edits` with the
original text on a first edit, pushes the new text, updates the message in
place and truncates the conversation to `messages[0..idx]`. -/
def updateMessageAndTruncate (st : ChatState) (now : String)
    (messageId newText : String) (files : Option (List FileData)) : ChatState :=
  match activeConv? st with
  | none => st
  | some conv =>
    match findIndexOpt (fun m => m.id == messageId) conv.messages with
    | none => st
    | some idx =>
      { st with
        conversations := updateFirst (isActiveConv st)
          (fun c =>
            { c with
              messages := (updateFirst (fun m => m.id == messageId)
                (fun m =>
                  let edits := match m.core.edits with
                    | none => [m.core.text]
                    | some es => es
                  Message.mk { m.core with
                    edits := some (edits ++ [newText]),
                    currentEditIndex := some ((edits ++ [newText]).length - 1),
                    text := newText,
                    -- `action.payload.files || []`
                    files := some (files.getD []),
                    isEditing := some false,
                    timestamp := now })
                c.messages).take (idx + 1),
              updatedAt := now })
          st.conversations }

/-- A navigation direction, the TS union of 'prev' and 'next'. -/
inductive Direction where
  | prev
  | next
deriving DecidableEq

/-- `navigateUserEditVersion` (lines 647-670): clamped movement through the
`edits` list of a message, mirroring `text`.  `Math.max(0, current - 1)` is
Nat subtraction; a valid `currentEditIndex` keeps the lookup in range (on a
corrupt index the JS code would store `undefined`; the model defaults to ""). -/
def navigateUserEditVersion (st : ChatState) (now : String)
    (messageId : String) (direction : Direction) : ChatState :=
  match activeConv? st with
  | none => st
  | some conv =>
    match conv.messages.find? (fun m => m.id == messageId) with
    | none => st
    | some msg =>
      match msg.edits with
      | none => st
      | some edits =>
        if edits.length < 2 then st
        else
          let current := msg.currentEditIndex.getD (edits.length - 1)
          let nextIndex := match direction with
            | Direction.prev => current - 1
            | Direction.next => min (edits.length - 1) (current + 1)
          { st with
            conversations := updateFirst (isActiveConv st)
              (fun c => { c with
                  messages := updateFirst (fun m => m.id == messageId)
                    (fun m => Message.mk { m.core with
                        currentEditIndex := some nextIndex,
                        text := edits.getD nextIndex "" })
                    c.messages,
                  updatedAt := now })
              st.conversations }

/-- `navigateResponseVersion` (lines 671-690): clamped movement through the
`responses` list.  The fallback is `currentResponseIndex || 0`. -/
def navigateResponseVersion (st : ChatState) (now : String)
    (messageId : String) (direction : Direction) : ChatState :=
  match activeConv? st with
  | none => st
  | some conv =>
    match conv.messages.find? (fun m => m.id == messageId) with
    | none => st
    | some msg =>
      match msg.responses with
      | none => st
      | some responses =>
        if responses.length ≤ 1 then st
        else
          let currentIndex := msg.currentResponseIndex.getD 0
          let newIndex := match direction with
            | Direction.prev => currentIndex - 1
            | Direction.next => min (responses.length - 1) (currentIndex + 1)
          { st with
            conversations := updateFirst (isActiveConv st)
              (fun c => { c with
                  messages := updateFirst (fun m => m.id == messageId)
                    (fun m => Message.mk { m.core with
                        currentResponseIndex := some newIndex,
                        text := responses.getD newIndex "" })
                    c.messages,
                  updatedAt := now })
              st.conversations }

/- ## Extra reducers of the async thunks (`chatSlice.ts` lines 728-866) -/

/-- `sendChatMessageStream.pending` (lines 749-752). -/
def sendChatMessageStreamPending (st : ChatState) : ChatState :=
  { st with isLoading := true, error := none }

/-- `sendChatMessageStream.fulfilled` (lines 753-756). -/
def sendChatMessageStreamFulfilled (st : ChatState) : ChatState :=
  { st with isLoading := false, error := none }

/-- `sendChatMessageStream.rejected` (lines 757-761): clears the streaming
pointer and records `action.error.message || 'Something went wrong'`.  The
message lists are untouched. -/
def sendChatMessageStreamRejected (st : ChatState) (errMessage : Option String) : ChatState :=
  { st with
    isLoading := false,
    error := some (jsOr errMessage "Something went wrong"),
    streamingMessageIndex := none }

/-- `regenerateFromMessage.pending` (lines 764-785): on a first edit (no
`branches` yet) archives the old tail as branch 0, then truncates the
conversation to the edited message. -/
def regenerateFromMessagePending (st : ChatState) (messageId : String) : ChatState :=
  let st1 := { st with isLoading := true, error := none }
  match activeConv? st1 with
  | none => st1
  | some conv =>
    match findIndexOpt (fun m => m.id == messageId) conv.messages with
    | none => st1
    | some idx =>
      let oldTail := conv.messages.drop (idx + 1)
      { st1 with
        conversations := updateFirst (isActiveConv st1)
          (fun c =>
            { c with
              messages := (updateFirst (fun m => m.id == messageId)
                (fun m =>
                  -- `if (!userMsg.branches) { userMsg.branches = [];
                  --    userMsg.currentBranchIndex = 0; }`
                  let bs := match m.core.branches with
                    | none => []
                    | some bs => bs
                  let cbi := match m.core.branches with
                    | none => some 0
                    | some _ => m.core.currentBranchIndex
                  -- `if (userMsg.branches.length === 0) { push(oldTail) }`
                  let bs2 := if bs.isEmpty then bs ++ [oldTail] else bs
                  Message.mk { m.core with branches := some bs2, currentBranchIndex := cbi })
                c.messages).take (idx + 1) })
          st1.conversations }

/-- `regenerateFromMessage.fulfilled` (lines 786-800): pushes the freshly
produced tail as a new branch and selects it.  `userMsg.branches!.push`
throws when `branches` is absent; a throwing reducer leaves the whole state
unchanged, which the model signals with `none`. -/
def regenerateFromMessageFulfilled (st : ChatState) (messageId : String) : Option ChatState :=
  let st1 := { st with isLoading := false, error := none }
  match activeConv? st1 with
  | none => some st1
  | some conv =>
    match findIndexOpt (fun m => m.id == messageId) conv.messages with
    | none => some st1
    | some idx =>
      match conv.messages.get? idx with
      | none => some st1   -- unreachable: `findIndexOpt` produced a valid index
      | some userMsg =>
        let newTail := conv.messages.drop (idx + 1)
        match userMsg.branches with
        | none => none
        | some bs =>
          some { st1 with
            conversations := updateFirst (isActiveConv st1)
              (fun c =>
                { c with
                  messages := updateFirst (fun m => m.id == messageId)
                    (fun m => Message.mk { m.core with
                        branches := some (bs ++ [newTail]),
                        currentBranchIndex := some ((bs ++ [newTail]).length - 1) })
                    c.messages })
              st1.conversations }

/-- `regenerateFromMessage.rejected` (lines 801-805). -/
def regenerateFromMessageRejected (st : ChatState) (errMessage : Option String) : ChatState :=
  { st with
    isLoading := false,
    error := some (jsOr errMessage "Regeneration failed"),
    streamingMessageIndex := none }

/-- `regenerateResponse.pending` (lines 808-811). -/
def regenerateResponsePending (st : ChatState) : ChatState :=
  { st with isLoading := true, error := none }

/-- `regenerateResponse.rejected` (lines 816-820). -/
def regenerateResponseRejected (st : ChatState) (errMessage : Option String) : ChatState :=
  { st with
    isLoading := false,
    error := some (jsOr errMessage "Response regeneration failed"),
    streamingMessageIndex := none }

/-- `webSearch.pending` (lines 823-827): clears previous results up front. -/
def webSearchPending (st : ChatState) : ChatState :=
  { st with searchLoading := true, searchError := none, searchResults := [] }

/-- `webSearch.fulfilled` (lines 828-832). -/
def webSearchFulfilled (st : ChatState) (payload : List String) : ChatState :=
  { st with searchLoading := false, searchResults := payload, searchError := none }

/-- `webSearch.rejected` (lines 833-837): records
`payload ?? error.message ?? 'Search failed'` and clears `searchResults`. -/
def webSearchRejected (st : ChatState) (payload errMessage : Option String) : ChatState :=
  { st with
    searchLoading := false,
    searchError := some ((payload.orElse (fun _ => errMessage)).getD "Search failed"),
    searchResults := [] }

/-- `generateImage.pending` (lines 840-845): does not clear
`generatedImageUrl`. -/
def generateImagePending (st : ChatState) : ChatState :=
  { st with imageLoading := true, imageError := none }

/-- `generateImage.fulfilled` (lines 846-859): stores the URL and appends an
entry to the image history. -/
def generateImageFulfilled (st : ChatState) (now payload prompt : String) : ChatState :=
  let hist := st.imageHistory ++ [{ prompt := prompt, url := payload, timestamp := now }]
  { st with
    imageLoading := false,
    generatedImageUrl := some payload,
    imageError := none,
    imageHistory := hist,
    currentImageIndex := some (hist.length - 1) }

/-- `generateImage.rejected` (lines 860-865): records
`payload ?? error.message ?? 'Image generation failed'`; `generatedImageUrl`
is deliberately kept. -/
def generateImageRejected (st : ChatState) (payload errMessage : Option String) : ChatState :=
  { st with
    imageLoading := false,
    imageError := some ((payload.orElse (fun _ => errMessage)).getD "Image generation failed") }

/- ## The guard logic of the `regenerateResponse` thunk body
(`chatSlice.ts` lines 364-447) -/

/-- One entry of the `history` array sent to the backend. -/
structure HistoryItem where
  role : String
  content : String
  files : List FileData
deriving DecidableEq

/-- `formatHistoryForAPI` (lines 96-102). -/
def formatHistoryForAPI (messages : List Message) : List HistoryItem :=
  messages.map (fun msg =>
    { role := if msg.sender == Sender.User then "user" else "assistant",
      content := msg.text,
      files := msg.files.getD [] })

/-- The request a successful `regenerateResponse` run would POST to `/chat`. -/
structure ChatRequest where
  text : String
  files : List FileData
  history : List HistoryItem
  model_name : String
deriving DecidableEq

/-- The checks at the head of the `regenerateResponse` thunk body (lines
367-390), up to the point where the HTTP request is issued: each `throw`
becomes an `Except.error` carrying the thrown message, and success carries
the request that would be sent. -/
def regenerateResponseThunk (st : ChatState) (messageId : String) : Except String ChatRequest :=
  match st.activeConversationId with
  | none => Except.error "No active conversation"
  | some _ =>
    match activeConv? st with
    | none => Except.error "Conversation not found"
    | some conv =>
      match findIndexOpt (fun m => m.id == messageId) conv.messages with
      | none => Except.error "Message not found"
      | some messageIndex =>
        -- `messageIndex > 0 ? messages[messageIndex - 1] : null`
        let userMessage := if messageIndex > 0 then conv.messages.get? (messageIndex - 1) else none
        match userMessage with
        | none => Except.error "No user message found to regenerate from"
        | some um =>
          if um.sender != Sender.User then
            Except.error "No user message found to regenerate from"
          else
            Except.ok
              { text := um.text,
                files := um.files.getD [],
                history := formatHistoryForAPI (conv.messages.take (messageIndex - 1)),
                model_name := st.selectedModel }

/- ## The navigation hook (`useMessageActions.ts` lines 23-71)

`handleNavigateUserEdit` runs inside one React event handler: `conv`,
`userMsg`, `head` and `tail` are read from the `conversations` prop captured
at render time, so the `head` passed to `replaceConversationTail` does not
see the `currentBranchIndex` update dispatched just before it. -/

/-- The branch arm of `handleNavigateUserEdit` (lines 47-70), reached when the
message has at most one edit.  `conv` and `userMsg` are the stale captures. -/
def branchNavigate (st : ChatState) (now activeId : String) (conv : Conversation)
    (userMsg : Message) (messageId : String) (direction : Direction) : ChatState :=
  match userMsg.branches with
  | none => st
  | some branches =>
    if branches.length > 1 then
      let currentBranch := userMsg.currentBranchIndex.getD 0
      let newBranch := match direction with
        | Direction.prev => currentBranch - 1
        | Direction.next => currentBranch + 1
      -- `Math.max(0, Math.min(branches.length - 1, newBranch))`
      let clamped := min (branches.length - 1) newBranch
      if clamped ≠ currentBranch then
        let st1 := setUserBranchIndex st messageId clamped
        match findIndexOpt (fun m => m.id == messageId) conv.messages with
        | none => st1
        | some msgIndex =>
          let head := conv.messages.take (msgIndex + 1)
          let tail := (branches.get? clamped).getD []
          replaceConversationTail st1 now activeId head tail
      else st
    else st

/-- `handleNavigateUserEdit` (lines 23-71): edit navigation takes priority;
branch navigation runs only when the message has fewer than two edits. -/
def handleNavigateUserEdit (st : ChatState) (now : String)
    (messageId : String) (direction : Direction) : ChatState :=
  if st.conversations.isEmpty then st
  else
    match st.activeConversationId with
    | none => st
    | some activeId =>
      match activeConv? st with
      | none => st
      | some conv =>
        match conv.messages.find? (fun m => m.id == messageId && m.sender == Sender.User) with
        | none => st
        | some userMsg =>
          match userMsg.edits with
          | some edits =>
            if edits.length > 1 then
              let currentEdit := userMsg.currentEditIndex.getD (edits.length - 1)
              let newEdit := match direction with
                | Direction.prev => currentEdit - 1
                | Direction.next => currentEdit + 1
              let clamped := min (edits.length - 1) newEdit
              if clamped ≠ currentEdit then
                navigateUserEditVersion st now messageId direction
              else st
            else branchNavigate st now activeId conv userMsg messageId direction
          | none => branchNavigate st now activeId conv userMsg messageId direction

/- ## Dispatch pipelines -/

/-- Folding a list of stream chunks through `appendToLastBotMessage`, in
arrival order. -/
def appendChunks (st : ChatState) (now : String) (chunks : List String) : ChatState :=
  chunks.foldl (fun s c => appendToLastBotMessage s now c) st

/-- The full dispatch sequence of an edit-and-regenerate call
(`regenerateFromMessage`, lines 281-362) on its success path: the `pending`
reducer fires first, then the thunk body dispatches
`updateMessageAndTruncate`, `addBotMessage`, one append per streamed chunk
and `finishStreaming`, and finally the `fulfilled` reducer runs. -/
def editRegenerate (st : ChatState) (now newId : String) (messageId newText : String)
    (files : List FileData) (chunks : List String) : Option ChatState :=
  let st1 := regenerateFromMessagePending st messageId
  let st2 := updateMessageAndTruncate st1 now messageId newText (some files)
  let st3 := addBotMessage st2 now newId ""
  let st4 := appendChunks st3 now chunks
  let st5 := finishStreaming st4 now
  regenerateFromMessageFulfilled st5 messageId

/- ## Observation helpers used in the claim statements -/

/-- The i-th message of the active conversation. -/
def activeMsg? (st : ChatState) (i : Nat) : Option Message :=
  (activeConv? st).bind (fun c => c.messages.get? i)

/-- The messages of a conversation currently flagged as streaming. -/
def streamingFlagged (ms : List Message) : List Message :=
  ms.filter (fun m => m.isStreaming == some true)

/-- Checks that a streaming flag appears only on the final message and only
on a bot message. -/
def streamingLastOnly : List Message → Bool
  | [] => true
  | [m] => !(m.isStreaming == some true) || m.sender == Sender.Bot
  | m :: rest => !(m.isStreaming == some true) && streamingLastOnly rest

/-- The spec invariant on streaming flags, as a boolean check on one
conversation: at most one streaming message, and only as a final bot
message. -/
def streamingInvariantHolds (c : Conversation) : Bool :=
  decide ((streamingFlagged c.messages).length ≤ 1) && streamingLastOnly c.messages

/- ## Spec-side reference definitions

These two definitions follow the wording of the specification, not the code;
they exist only to be compared with the implementation above. -/

/-- Modelled from the spec, section 4.2, `navigateBranch(messageId,
newBranchIndex)`: clamps the index to `[0, branches.length-1]` and rebuilds
`conversation.messages` as `head (= messages[0..i] with message i's text set
to the edit matching this branch) + branches[newBranchIndex]`, taking "the
edit matching this branch" to be `edits[newBranchIndex]` (branch `j` is
created by edit `j`: branch 0 by the original text `edits[0]`, branch `j+1`
by the edit that regenerated it). -/
def navigateBranchSpec (st : ChatState) (now messageId : String) (newBranchIndex : Nat) : ChatState :=
  match activeConv? st with
  | none => st
  | some conv =>
    match findIndexOpt (fun m => m.id == messageId) conv.messages with
    | none => st
    | some i =>
      match conv.messages.get? i with
      | none => st
      | some u =>
        match u.branches with
        | none => st
        | some bs =>
          let k := min (bs.length - 1) newBranchIndex
          let matchingEdit := (u.edits.getD []).getD k u.text
          let head := conv.messages.take i ++ [Message.mk { u.core with text := matchingEdit }]
          { st with
            conversations := updateFirst (isActiveConv st)
              (fun c => { c with messages := head ++ (bs.get? k).getD [], updatedAt := now })
              st.conversations }

/-- Modelled from the spec, section 4.2, edge-case policy: response
navigation with the fallback `currentResponseIndex ?? responses.length - 1`
(the claim asserts the current, last index is the fallback for response
navigation as well; the implementation uses `|| 0`). -/
def navigateResponseSpecFallback (st : ChatState) (now : String)
    (messageId : String) (direction : Direction) : ChatState :=
  match activeConv? st with
  | none => st
  | some conv =>
    match conv.messages.find? (fun m => m.id == messageId) with
    | none => st
    | some msg =>
      match msg.responses with
      | none => st
      | some responses =>
        if responses.length ≤ 1 then st
        else
          let currentIndex := msg.currentResponseIndex.getD (responses.length - 1)
          let newIndex := match direction with
            | Direction.prev => currentIndex - 1
            | Direction.next => min (responses.length - 1) (currentIndex + 1)
          { st with
            conversations := updateFirst (isActiveConv st)
              (fun c => { c with
                  messages := updateFirst (fun m => m.id == messageId)
                    (fun m => Message.mk { m.core with
                        currentResponseIndex := some newIndex,
                        text := responses.getD newIndex "" })
                    c.messages,
                  updatedAt := now })
              st.conversations }

/- ## Concrete states used by witnesses and counterexamples -/

/-- A user message carrying only the fields a fresh user message has. -/
def plainUserMessage (id text : String) : Message :=
  Message.mk
    { id := id, sender := Sender.User, text := text, files := none,
      isStreaming := none, timestamp := "t0", isEditing := none,
      responses := none, currentResponseIndex := none, edits := none,
      currentEditIndex := none, branches := none, currentBranchIndex := none }

/-- A one-conversation state with the given messages, the conversation
active. -/
def singleConvState (title : String) (ms : List Message) : ChatState :=
  { initialState with
    conversations := [{ id := "c1", title := title, messages := ms,
                        model := "m", createdAt := "t0", updatedAt := "t0" }],
    activeConversationId := some "c1" }

/-- C2 scenario: a send stream fails after having produced a partial bot
message, then the user sends again and a new stream starts.  Events are
applied in dispatch order. -/
def failedThenRestartedState : ChatState :=
  addBotMessage
    (sendChatMessageStreamPending
      (addMessage
        (sendChatMessageStreamRejected
          (appendToLastBotMessage
            (addBotMessage
              (sendChatMessageStreamPending
                (addMessage (singleConvState "New Chat" []) "t1" "c1" (plainUserMessage "u1" "hi")))
              "t2" "b1" "")
            "t3" "par")
          (some "network error"))
        "t4" "c1" (plainUserMessage "u2" "again")))
    "t5" "b2" ""

/-- C3 counterexample: a user message that has already been edited once
(`branches` holds one archived tail), whose live continuation has grown by a
follow-up exchange since. -/
def editedUser : Message :=
  Message.mk
    { id := "u1", sender := Sender.User, text := "A2", files := none,
      isStreaming := none, timestamp := "t0", isEditing := none, responses := none,
      currentResponseIndex := none, edits := some ["A", "A2"], currentEditIndex := some 1,
      branches := some [[freshBotMessage "b0" "t0" "reply1"]], currentBranchIndex := some 1 }

def grownTailState : ChatState :=
  singleConvState "T"
    [editedUser, freshBotMessage "b1" "t0" "reply2", plainUserMessage "u2" "follow-up"]

/-- C4 counterexample: a user message on the branch-navigation path (a single
recorded edit, two branches) whose current text differs from the recorded
edit matching branch 0. -/
def branchedUser : Message :=
  Message.mk
    { id := "u1", sender := Sender.User, text := "A2", files := none,
      isStreaming := none, timestamp := "t0", isEditing := none, responses := none,
      currentResponseIndex := none, edits := some ["A"], currentEditIndex := some 0,
      branches := some [[freshBotMessage "x" "t0" "tail0"], [freshBotMessage "y" "t0" "tail1"]],
      currentBranchIndex := some 1 }

def branchedState : ChatState :=
  singleConvState "T" [branchedUser, freshBotMessage "y" "t0" "tail1"]

/-- C5 counterexample: a state holding an earlier successful search result. -/
def priorSearchState : ChatState :=
  { initialState with searchResults := ["result one"] }

/-- C6/C1 witness conversation: one user message with original text "A" and
no prior edits, followed by one bot reply. -/
def witnessConvState : ChatState :=
  singleConvState "T" [plainUserMessage "u1" "A", freshBotMessage "b1" "t0" "reply1"]

/-- C7 states: a bot message with three stored responses and a given
`currentResponseIndex`, and a user message with three stored edits and a
given `currentEditIndex`. -/
def navBotMsg (cri : Option Nat) : Message :=
  Message.mk
    { id := "b1", sender := Sender.Bot, text := "rc", files := none,
      isStreaming := none, timestamp := "t0", isEditing := none,
      responses := some ["ra", "rb", "rc"], currentResponseIndex := cri,
      edits := none, currentEditIndex := none, branches := none, currentBranchIndex := none }

def navBotState (cri : Option Nat) : ChatState :=
  singleConvState "T" [plainUserMessage "u0" "q", navBotMsg cri]

def navUserMsg (cei : Option Nat) : Message :=
  Message.mk
    { id := "u1", sender := Sender.User, text := "C", files := none,
      isStreaming := none, timestamp := "t0", isEditing := none,
      responses := none, currentResponseIndex := none,
      edits := some ["A", "B", "C"], currentEditIndex := cei,
      branches := none, currentBranchIndex := none }

def navUserState (cei : Option Nat) : ChatState :=
  singleConvState "T" [navUserMsg cei]

/-- C9 witness: a conversation whose first message is a bot message. -/
def botFirstState : ChatState :=
  singleConvState "T" [freshBotMessage "b1" "t0" "hello", plainUserMessage "u1" "q"]

/- ## Intermediate states of the edit-regenerate dispatch pipeline

Each definition below is definitionally the state after the corresponding
dispatch of `regenerateFromMessage` on a conversation decomposed as
`L ++ conv :: R` with `conv.messages = H ++ u :: T`.  They only name the
states the reducers produce; the reducers above remain the sole semantics. -/

/-- The edited user message after `pending` archived the old tail `T`. -/
def c1ArchivedUser (u : Message) (T : List Message) : Message :=
  Message.mk { u.core with branches := some [T], currentBranchIndex := some 0 }

/-- The edited user message after `updateMessageAndTruncate`. -/
def c1EditedUser (u : Message) (T : List Message) (now newText : String)
    (files : List FileData) : Message :=
  Message.mk { (c1ArchivedUser u T).core with
    edits := some [(c1ArchivedUser u T).core.text, newText],
    currentEditIndex := some 1,
    text := newText,
    files := some ((some files).getD []),
    isEditing := some false,
    timestamp := now }

/-- The fresh bot message after all chunks have been appended. -/
def c1StreamedBot (newId now : String) (chunks : List String) : Message :=
  Message.mk { (freshBotMessage newId now "").core with
    text := (freshBotMessage newId now "").core.text ++ concatAll chunks }

/-- The fresh bot message after `finishStreaming`. -/
def c1FinishedBot (newId now : String) (chunks : List String) : Message :=
  Message.mk { (c1StreamedBot newId now chunks).core with isStreaming := some false }

def c1Conv1 (conv : Conversation) (H T : List Message) (u : Message) : Conversation :=
  { conv with messages := H ++ [c1ArchivedUser u T] }

def c1Stage1 (st : ChatState) (L R : List Conversation) (conv : Conversation)
    (H T : List Message) (u : Message) : ChatState :=
  { st with
    isLoading := true,
    error := none,
    conversations := L ++ c1Conv1 conv H T u :: R }

def c1Conv2 (conv : Conversation) (H T : List Message) (u : Message)
    (now newText : String) (files : List FileData) : Conversation :=
  { c1Conv1 conv H T u with
    messages := H ++ [c1EditedUser u T now newText files],
    updatedAt := now }

def c1Stage2 (st : ChatState) (L R : List Conversation) (conv : Conversation)
    (H T : List Message) (u : Message) (now newText : String)
    (files : List FileData) : ChatState :=
  { c1Stage1 st L R conv H T u with
    conversations := L ++ c1Conv2 conv H T u now newText files :: R }

def c1Conv3 (conv : Conversation) (H T : List Message) (u : Message)
    (now newId newText : String) (files : List FileData) : Conversation :=
  { c1Conv2 conv H T u now newText files with
    messages := (c1Conv2 conv H T u now newText files).messages
      ++ [freshBotMessage newId now ""],
    updatedAt := now }

def c1Stage3 (st : ChatState) (L R : List Conversation) (conv : Conversation)
    (H T : List Message) (u : Message) (now newId newText : String)
    (files : List FileData) : ChatState :=
  { c1Stage2 st L R conv H T u now newText files with
    conversations := L ++ c1Conv3 conv H T u now newId newText files :: R,
    streamingMessageIndex := some (c1Conv2 conv H T u now newText files).messages.length }

def c1Conv4 (conv : Conversation) (H T : List Message) (u : Message)
    (now newId newText : String) (files : List FileData)
    (chunks : List String) : Conversation :=
  { c1Conv3 conv H T u now newId newText files with
    messages := (c1Conv2 conv H T u now newText files).messages
      ++ [c1StreamedBot newId now chunks],
    updatedAt := if chunks.isEmpty
      then (c1Conv3 conv H T u now newId newText files).updatedAt else now }

def c1Stage4 (st : ChatState) (L R : List Conversation) (conv : Conversation)
    (H T : List Message) (u : Message) (now newId newText : String)
    (files : List FileData) (chunks : List String) : ChatState :=
  { c1Stage3 st L R conv H T u now newId newText files with
    conversations := L ++ c1Conv4 conv H T u now newId newText files chunks :: R }

def c1Conv5 (conv : Conversation) (H T : List Message) (u : Message)
    (now newId newText : String) (files : List FileData)
    (chunks : List String) : Conversation :=
  { c1Conv4 conv H T u now newId newText files chunks with
    messages := (c1Conv2 conv H T u now newText files).messages
      ++ c1FinishedBot newId now chunks :: [],
    updatedAt := now }

def c1Stage5 (st : ChatState) (L R : List Conversation) (conv : Conversation)
    (H T : List Message) (u : Message) (now newId newText : String)
    (files : List FileData) (chunks : List String) : ChatState :=
  { c1Stage4 st L R conv H T u now newId newText files chunks with
    conversations := L ++ c1Conv5 conv H T u now newId newText files chunks :: R,
    streamingMessageIndex := none }

/- ## List lemmas about first-match search and update -/

theorem find?_eq_none_of_all (p : α → Bool) (l : List α)
    (h : ∀ x ∈ l, p x = false) : l.find? p = none := by
  rw [List.find?_eq_none]
  intro x hx
  simp [h x hx]

theorem find?_append_first (p : α → Bool) (l1 : List α) (a : α) (l2 : List α)
    (h1 : ∀ x ∈ l1, p x = false) (h2 : p a = true) :
    (l1 ++ a :: l2).find? p = some a := by
  induction l1 with
  | nil =>
    rw [List.nil_append, List.find?_cons_of_pos _ h2]
  | cons b l1 ih =>
    have hb : ¬ (p b = true) := by
      simp [h1 b (List.mem_cons_self b l1)]
    rw [List.cons_append, List.find?_cons_of_neg _ hb]
    exact ih (fun x hx => h1 x (List.mem_cons_of_mem b hx))

theorem findIndexOpt_eq_none_of_all (p : α → Bool) (l : List α)
    (h : ∀ x ∈ l, p x = false) : findIndexOpt p l = none := by
  induction l with
  | nil => rfl
  | cons a l ih =>
    have ha : ¬ (p a = true) := by
      simp [h a (List.mem_cons_self a l)]
    rw [findIndexOpt, if_neg ha, ih (fun x hx => h x (List.mem_cons_of_mem a hx))]
    rfl

theorem findIndexOpt_append_first (p : α → Bool) (l1 : List α) (a : α) (l2 : List α)
    (h1 : ∀ x ∈ l1, p x = false) (h2 : p a = true) :
    findIndexOpt p (l1 ++ a :: l2) = some l1.length := by
  induction l1 with
  | nil =>
    rw [List.nil_append, findIndexOpt, if_pos h2]
    rfl
  | cons b l1 ih =>
    have hb : ¬ (p b = true) := by
      simp [h1 b (List.mem_cons_self b l1)]
    rw [List.cons_append, findIndexOpt, if_neg hb,
      ih (fun x hx => h1 x (List.mem_cons_of_mem b hx))]
    rfl

theorem updateFirst_eq_of_all (p : α → Bool) (f : α → α) (l : List α)
    (h : ∀ x ∈ l, p x = false) : updateFirst p f l = l := by
  induction l with
  | nil => rfl
  | cons a l ih =>
    have ha : ¬ (p a = true) := by
      simp [h a (List.mem_cons_self a l)]
    rw [updateFirst, if_neg ha, ih (fun x hx => h x (List.mem_cons_of_mem a hx))]

theorem updateFirst_append (p : α → Bool) (f : α → α) (l1 : List α) (a : α) (l2 : List α)
    (h1 : ∀ x ∈ l1, p x = false) (h2 : p a = true) :
    updateFirst p f (l1 ++ a :: l2) = l1 ++ f a :: l2 := by
  induction l1 with
  | nil =>
    rw [List.nil_append, updateFirst, if_pos h2]
    rfl
  | cons b l1 ih =>
    have hb : ¬ (p b = true) := by
      simp [h1 b (List.mem_cons_self b l1)]
    rw [List.cons_append, updateFirst, if_neg hb,
      ih (fun x hx => h1 x (List.mem_cons_of_mem b hx))]
    rfl

theorem get?_append_mid (l1 : List α) (a : α) (l2 : List α) :
    (l1 ++ a :: l2).get? l1.length = some a := by
  induction l1 with
  | nil => rfl
  | cons b l1 ih => simpa using ih

theorem take_append_mid (l1 : List α) (a : α) (l2 : List α) :
    (l1 ++ a :: l2).take (l1.length + 1) = l1 ++ [a] := by
  induction l1 with
  | nil => rfl
  | cons b l1 ih => simpa using ih

theorem drop_append_mid (l1 : List α) (a : α) (l2 : List α) :
    (l1 ++ a :: l2).drop (l1.length + 1) = l2 := by
  induction l1 with
  | nil => rfl
  | cons b l1 ih => simp [ih]

theorem modifyAt_append (f : α → α) (l1 : List α) (a : α) (l2 : List α) :
    modifyAt f l1.length (l1 ++ a :: l2) = l1 ++ f a :: l2 := by
  induction l1 with
  | nil => rfl
  | cons b l1 ih => simpa [modifyAt] using ih

/- ## Decomposition of a state around its active conversation -/

/-- The hypotheses shared by the claims: the active id is `cid`, and the
collection splits as `L ++ conv :: R` where `conv` is the first conversation
carrying that id. -/
structure ActiveDecomp (st : ChatState) (cid : String) (L : List Conversation)
    (conv : Conversation) (R : List Conversation) : Prop where
  hA : st.activeConversationId = some cid
  hC : st.conversations = L ++ conv :: R
  hL : ∀ c ∈ L, (c.id == cid) = false
  hid : conv.id = cid

theorem isActiveConv_eq (st : ChatState) (cid : String)
    (hA : st.activeConversationId = some cid) (c : Conversation) :
    isActiveConv st c = (c.id == cid) := by
  simp [isActiveConv, hA]

theorem activeConv?_decomp {st : ChatState} {cid : String} {L : List Conversation}
    {conv : Conversation} {R : List Conversation}
    (h : ActiveDecomp st cid L conv R) : activeConv? st = some conv := by
  unfold activeConv?
  rw [h.hC]
  apply find?_append_first
  · intro c hc
    rw [isActiveConv_eq st cid h.hA]
    exact h.hL c hc
  · rw [isActiveConv_eq st cid h.hA, h.hid]
    simp

theorem updateFirst_active_decomp {st : ChatState} {cid : String} {L : List Conversation}
    {conv : Conversation} {R : List Conversation}
    (h : ActiveDecomp st cid L conv R) (f : Conversation → Conversation) :
    updateFirst (isActiveConv st) f st.conversations = L ++ f conv :: R := by
  rw [h.hC]
  apply updateFirst_append
  · intro c hc
    rw [isActiveConv_eq st cid h.hA]
    exact h.hL c hc
  · rw [isActiveConv_eq st cid h.hA, h.hid]
    simp

/-- Decomposition of a message list around the first message with id `mid`. -/
structure MsgDecomp (ms : List Message) (mid : String) (H : List Message)
    (u : Message) (T : List Message) : Prop where
  hM : ms = H ++ u :: T
  hH : ∀ m ∈ H, (m.id == mid) = false
  hu : u.id = mid

theorem msg_find?_decomp {ms : List Message} {mid : String} {H : List Message}
    {u : Message} {T : List Message} (h : MsgDecomp ms mid H u T) :
    ms.find? (fun m => m.id == mid) = some u := by
  rw [h.hM]
  apply find?_append_first _ _ _ _ h.hH
  simp [h.hu]

theorem msg_findIndexOpt_decomp {ms : List Message} {mid : String} {H : List Message}
    {u : Message} {T : List Message} (h : MsgDecomp ms mid H u T) :
    findIndexOpt (fun m => m.id == mid) ms = some H.length := by
  rw [h.hM]
  apply findIndexOpt_append_first _ _ _ _ h.hH
  simp [h.hu]

theorem msg_updateFirst_decomp {ms : List Message} {mid : String} {H : List Message}
    {u : Message} {T : List Message} (h : MsgDecomp ms mid H u T) (f : Message → Message) :
    updateFirst (fun m => m.id == mid) f ms = H ++ f u :: T := by
  rw [h.hM]
  apply updateFirst_append _ _ _ _ _ h.hH
  simp [h.hu]

/- ## Characterizations of the reducers on a decomposed state -/

theorem setUserBranchIndex_char
    (st : ChatState) (cid : String) (L : List Conversation) (conv : Conversation)
    (R : List Conversation) (hA : ActiveDecomp st cid L conv R)
    (mid : String) (H : List Message) (u : Message) (T : List Message)
    (hM : MsgDecomp conv.messages mid H u T)
    (bs : List (List Message)) (hbr : u.branches = some bs) (k : Nat) :
    setUserBranchIndex st mid k =
      { st with
        conversations := L ++
          { conv with
            messages :=
              H ++ Message.mk { u.core with currentBranchIndex := some k } :: T } :: R } := by
  simp only [setUserBranchIndex, activeConv?_decomp hA, msg_find?_decomp hM, hbr]
  rw [updateFirst_active_decomp hA]
  rw [msg_updateFirst_decomp hM]

theorem replaceConversationTail_char
    (st : ChatState) (cid : String) (L : List Conversation) (conv : Conversation)
    (R : List Conversation) (hA : ActiveDecomp st cid L conv R)
    (now : String) (head tail : List Message) :
    replaceConversationTail st now cid head tail =
      { st with
        conversations := L ++ { conv with messages := head ++ tail, updatedAt := now } :: R } := by
  have hfind : st.conversations.find? (fun c => c.id == cid) = some conv := by
    rw [hA.hC]
    apply find?_append_first _ _ _ _ hA.hL
    simp [hA.hid]
  have hupd : updateFirst (fun c => c.id == cid)
      (fun c => { c with messages := head ++ tail, updatedAt := now }) st.conversations =
      L ++ { conv with messages := head ++ tail, updatedAt := now } :: R := by
    rw [hA.hC]
    apply updateFirst_append _ _ _ _ _ hA.hL
    simp [hA.hid]
  simp only [replaceConversationTail, hfind]
  rw [hupd]

theorem updateMessageAndTruncate_char_firstEdit
    (st : ChatState) (cid : String) (L : List Conversation) (conv : Conversation)
    (R : List Conversation) (hA : ActiveDecomp st cid L conv R)
    (mid : String) (H : List Message) (u : Message) (T : List Message)
    (hM : MsgDecomp conv.messages mid H u T)
    (hed : u.edits = none)
    (now newText : String) (files : Option (List FileData)) :
    updateMessageAndTruncate st now mid newText files =
      { st with
        conversations := L ++
          { conv with
            messages := H ++ [Message.mk { u.core with
              edits := some [u.core.text, newText],
              currentEditIndex := some 1,
              text := newText,
              files := some (files.getD []),
              isEditing := some false,
              timestamp := now }],
            updatedAt := now } :: R } := by
  have hed' : u.core.edits = none := hed
  simp only [updateMessageAndTruncate, activeConv?_decomp hA, msg_findIndexOpt_decomp hM]
  rw [updateFirst_active_decomp hA]
  rw [msg_updateFirst_decomp hM]
  rw [take_append_mid]
  simp only [hed']
  rfl

theorem addBotMessage_char
    (st : ChatState) (cid : String) (L : List Conversation) (conv : Conversation)
    (R : List Conversation) (hA : ActiveDecomp st cid L conv R)
    (now newId text : String) :
    addBotMessage st now newId text =
      { st with
        conversations := L ++
          { conv with
            messages := conv.messages ++ [freshBotMessage newId now text],
            updatedAt := now } :: R,
        streamingMessageIndex := some conv.messages.length } := by
  simp only [addBotMessage, activeConv?_decomp hA]
  rw [updateFirst_active_decomp hA]

theorem appendToLastBotMessage_char
    (st : ChatState) (cid : String) (L : List Conversation) (conv : Conversation)
    (R : List Conversation) (hA : ActiveDecomp st cid L conv R)
    (M : List Message) (b : Message) (T : List Message)
    (hconv : conv.messages = M ++ b :: T)
    (hsmi : st.streamingMessageIndex = some M.length)
    (now chunk : String) :
    appendToLastBotMessage st now chunk =
      { st with
        conversations := L ++
          { conv with
            messages := M ++ Message.mk { b.core with text := b.core.text ++ chunk } :: T,
            updatedAt := now } :: R } := by
  simp only [appendToLastBotMessage, activeConv?_decomp hA, hsmi]
  rw [updateFirst_active_decomp hA]
  rw [hconv, modifyAt_append]

theorem finishStreaming_char
    (st : ChatState) (cid : String) (L : List Conversation) (conv : Conversation)
    (R : List Conversation) (hA : ActiveDecomp st cid L conv R)
    (M : List Message) (b : Message) (T : List Message)
    (hconv : conv.messages = M ++ b :: T)
    (hsmi : st.streamingMessageIndex = some M.length)
    (now : String) :
    finishStreaming st now =
      { st with
        conversations := L ++
          { conv with
            messages := M ++ Message.mk { b.core with isStreaming := some false } :: T,
            updatedAt := now } :: R,
        streamingMessageIndex := none } := by
  simp only [finishStreaming, activeConv?_decomp hA, hsmi]
  rw [updateFirst_active_decomp hA]
  rw [hconv, modifyAt_append]

theorem regenPending_first_spec
    (st : ChatState) (cid : String) (L : List Conversation) (conv : Conversation)
    (R : List Conversation) (hA : ActiveDecomp st cid L conv R)
    (mid : String) (H : List Message) (u : Message) (T : List Message)
    (hM : MsgDecomp conv.messages mid H u T)
    (hbr : u.branches = none) :
    regenerateFromMessagePending st mid =
      { st with
        isLoading := true, error := none,
        conversations := L ++
          { conv with
            messages := H ++ [Message.mk { u.core with
              branches := some [T],
              currentBranchIndex := some 0 }] } :: R } := by
  have hbr' : u.core.branches = none := hbr
  have hA1 : ActiveDecomp { st with isLoading := true, error := none } cid L conv R :=
    ⟨hA.hA, hA.hC, hA.hL, hA.hid⟩
  simp only [regenerateFromMessagePending, activeConv?_decomp hA1, msg_findIndexOpt_decomp hM]
  rw [updateFirst_active_decomp hA1]
  rw [msg_updateFirst_decomp hM]
  rw [take_append_mid]
  simp only [hbr']
  rw [hM.hM, drop_append_mid]
  rfl

theorem regenFulfilled_char
    (st : ChatState) (cid : String) (L : List Conversation) (conv : Conversation)
    (R : List Conversation) (hA : ActiveDecomp st cid L conv R)
    (mid : String) (H : List Message) (u : Message) (T : List Message)
    (hM : MsgDecomp conv.messages mid H u T)
    (bs : List (List Message)) (hbr : u.branches = some bs) :
    regenerateFromMessageFulfilled st mid =
      some { st with
        isLoading := false, error := none,
        conversations := L ++
          { conv with
            messages := H ++ Message.mk { u.core with
              branches := some (bs ++ [T]),
              currentBranchIndex := some ((bs ++ [T]).length - 1) } :: T } :: R } := by
  have hA1 : ActiveDecomp { st with isLoading := false, error := none } cid L conv R :=
    ⟨hA.hA, hA.hC, hA.hL, hA.hid⟩
  simp only [regenerateFromMessageFulfilled, activeConv?_decomp hA1, msg_findIndexOpt_decomp hM]
  rw [hM.hM]
  simp only [get?_append_mid, hbr]
  rw [drop_append_mid]
  rw [updateFirst_active_decomp hA1]
  rw [msg_updateFirst_decomp hM]

theorem navigateUserEditVersion_char
    (st : ChatState) (cid : String) (L : List Conversation) (conv : Conversation)
    (R : List Conversation) (hA : ActiveDecomp st cid L conv R)
    (mid : String) (H : List Message) (u : Message) (T : List Message)
    (hM : MsgDecomp conv.messages mid H u T)
    (edits : List String) (hed : u.edits = some edits) (hlen : 2 ≤ edits.length)
    (now : String) (direction : Direction) (ni : Nat)
    (hni : ni = match direction with
      | Direction.prev => (u.currentEditIndex.getD (edits.length - 1)) - 1
      | Direction.next => min (edits.length - 1) ((u.currentEditIndex.getD (edits.length - 1)) + 1)) :
    navigateUserEditVersion st now mid direction =
      { st with
        conversations := L ++
          { conv with
            messages := H ++ Message.mk { u.core with
              currentEditIndex := some ni,
              text := edits.getD ni "" } :: T,
            updatedAt := now } :: R } := by
  have hni' : ¬ (edits.length < 2) := by omega
  simp only [navigateUserEditVersion, activeConv?_decomp hA, msg_find?_decomp hM, hed]
  rw [if_neg hni']
  rw [updateFirst_active_decomp hA]
  rw [msg_updateFirst_decomp hM]
  rw [hni]

theorem navigateResponseVersion_char
    (st : ChatState) (cid : String) (L : List Conversation) (conv : Conversation)
    (R : List Conversation) (hA : ActiveDecomp st cid L conv R)
    (mid : String) (H : List Message) (u : Message) (T : List Message)
    (hM : MsgDecomp conv.messages mid H u T)
    (responses : List String) (hrs : u.responses = some responses)
    (hlen : 2 ≤ responses.length)
    (now : String) (direction : Direction) (ni : Nat)
    (hni : ni = match direction with
      | Direction.prev => (u.currentResponseIndex.getD 0) - 1
      | Direction.next => min (responses.length - 1) ((u.currentResponseIndex.getD 0) + 1)) :
    navigateResponseVersion st now mid direction =
      { st with
        conversations := L ++
          { conv with
            messages := H ++ Message.mk { u.core with
              currentResponseIndex := some ni,
              text := responses.getD ni "" } :: T,
            updatedAt := now } :: R } := by
  have hni' : ¬ (responses.length ≤ 1) := by omega
  simp only [navigateResponseVersion, activeConv?_decomp hA, msg_find?_decomp hM, hrs]
  rw [if_neg hni']
  rw [updateFirst_active_decomp hA]
  rw [msg_updateFirst_decomp hM]
  rw [hni]

theorem mk_core_eta (m : Message) : Message.mk m.core = m := by
  cases m
  rfl

theorem appendChunks_char
    (chunks : List String) (now cid : String) (L R : List Conversation) (M : List Message) :
    ∀ (st : ChatState) (conv : Conversation) (b : Message),
      ActiveDecomp st cid L conv R →
      conv.messages = M ++ [b] →
      st.streamingMessageIndex = some M.length →
      appendChunks st now chunks =
        { st with
          conversations := L ++
            { conv with
              messages := M ++ [Message.mk { b.core with
                text := b.core.text ++ concatAll chunks }],
              updatedAt := if chunks.isEmpty then conv.updatedAt else now } :: R } := by
  induction chunks with
  | nil =>
    intro st conv b hA hconv hsmi
    have hb : Message.mk { b.core with text := b.core.text ++ concatAll [] } = b := by
      cases b with
      | mk c => simp [Message.core, concatAll]
    show st = _
    rw [hb]
    have hcv :
        { conv with
          messages := M ++ [b],
          updatedAt := if ([] : List String).isEmpty then conv.updatedAt else now } = conv := by
      rw [← hconv]
      rfl
    rw [hcv, ← hA.hC]
  | cons c cs ih =>
    intro st conv b hA hconv hsmi
    show appendChunks (appendToLastBotMessage st now c) now cs = _
    rw [appendToLastBotMessage_char st cid L conv R hA M b [] hconv hsmi now c]
    rw [ih
      { st with
        conversations := L ++
          { conv with
            messages := M ++ Message.mk { b.core with text := b.core.text ++ c } :: [],
            updatedAt := now } :: R }
      { conv with
        messages := M ++ Message.mk { b.core with text := b.core.text ++ c } :: [],
        updatedAt := now }
      (Message.mk { b.core with text := b.core.text ++ c })
      ⟨hA.hA, rfl, hA.hL, hA.hid⟩ rfl hsmi]
    simp [concatAll, String.append_assoc, ite_self, Message.core]

/- ## No-op behaviour of the version reducers on a missing target -/

theorem findIndexOpt_eq_none_of_find? (p : α → Bool) (l : List α)
    (h : l.find? p = none) : findIndexOpt p l = none := by
  rw [List.find?_eq_none] at h
  apply findIndexOpt_eq_none_of_all
  intro x hx
  simpa using h x hx

theorem setUserBranchIndex_noop (st : ChatState) (mid : String) (k : Nat)
    (h : ∀ conv, activeConv? st = some conv →
      conv.messages.find? (fun m => m.id == mid) = none) :
    setUserBranchIndex st mid k = st := by
  cases hc : activeConv? st with
  | none => simp only [setUserBranchIndex, hc]
  | some conv => simp only [setUserBranchIndex, hc, h conv hc]

theorem updateMessageAndTruncate_noop (st : ChatState) (now mid newText : String)
    (files : Option (List FileData))
    (h : ∀ conv, activeConv? st = some conv →
      conv.messages.find? (fun m => m.id == mid) = none) :
    updateMessageAndTruncate st now mid newText files = st := by
  cases hc : activeConv? st with
  | none => simp only [updateMessageAndTruncate, hc]
  | some conv =>
    simp only [updateMessageAndTruncate, hc,
      findIndexOpt_eq_none_of_find? _ _ (h conv hc)]

theorem navigateUserEditVersion_noop (st : ChatState) (now mid : String) (d : Direction)
    (h : ∀ conv, activeConv? st = some conv →
      conv.messages.find? (fun m => m.id == mid) = none) :
    navigateUserEditVersion st now mid d = st := by
  cases hc : activeConv? st with
  | none => simp only [navigateUserEditVersion, hc]
  | some conv => simp only [navigateUserEditVersion, hc, h conv hc]

theorem navigateResponseVersion_noop (st : ChatState) (now mid : String) (d : Direction)
    (h : ∀ conv, activeConv? st = some conv →
      conv.messages.find? (fun m => m.id == mid) = none) :
    navigateResponseVersion st now mid d = st := by
  cases hc : activeConv? st with
  | none => simp only [navigateResponseVersion, hc]
  | some conv => simp only [navigateResponseVersion, hc, h conv hc]

/- ## Claim theorems -/

/-- C10: each of the four synchronous version/branch reducers
(`setUserBranchIndex`, `updateMessageAndTruncate`, `navigateUserEditVersion`,
`navigateResponseVersion`), called with no active conversation or with a
message id that does not occur in the active conversation, returns the state
completely unchanged: nothing is thrown and no error field is set. -/
theorem versionReducers_unknown_target_noop
    (st : ChatState) (now mid newText : String) (k : Nat)
    (files : Option (List FileData)) (d : Direction)
    (h : ∀ conv, activeConv? st = some conv →
      conv.messages.find? (fun m => m.id == mid) = none) :
    setUserBranchIndex st mid k = st ∧
    updateMessageAndTruncate st now mid newText files = st ∧
    navigateUserEditVersion st now mid d = st ∧
    navigateResponseVersion st now mid d = st :=
  ⟨setUserBranchIndex_noop st mid k h,
   updateMessageAndTruncate_noop st now mid newText files h,
   navigateUserEditVersion_noop st now mid d h,
   navigateResponseVersion_noop st now mid d h⟩

/-- Witness for C10: the initial state has no active conversation, and every
one of the four reducers leaves it untouched. -/
theorem versionReducers_unknown_target_noop_witness :
    setUserBranchIndex initialState "m1" 0 = initialState ∧
    updateMessageAndTruncate initialState "t1" "m1" "new" none = initialState ∧
    navigateUserEditVersion initialState "t1" "m1" Direction.prev = initialState ∧
    navigateResponseVersion initialState "t1" "m1" Direction.prev = initialState :=
  versionReducers_unknown_target_noop initialState "t1" "m1" "new" 0 none Direction.prev
    (fun conv hc => by simp [activeConv?, initialState] at hc)

/-- C5, counterexample: the claim says a failed web search leaves the prior
`searchResults` in place, but `webSearch.rejected` resets `searchResults` to
the empty list, so a state holding an earlier result loses it. -/
theorem webSearchRejected_clears_results
    : (webSearchRejected priorSearchState none none).searchResults = [] ∧
      priorSearchState.searchResults = ["result one"] ∧
      (webSearchRejected priorSearchState none none).searchResults ≠
        priorSearchState.searchResults :=
  ⟨rfl, rfl, by decide⟩

/-- C5, amended: a failed image generation keeps the previously stored
`generatedImageUrl` and only sets `imageError`, and it also leaves
`searchResults` alone; a failed web search, by contrast, clears
`searchResults` (as does `webSearch.pending`) while setting `searchError`,
and leaves `generatedImageUrl` alone. -/
theorem toolFailure_result_retention (st : ChatState) (p e : Option String) :
    (generateImageRejected st p e).generatedImageUrl = st.generatedImageUrl ∧
    (generateImageRejected st p e).searchResults = st.searchResults ∧
    (generateImageRejected st p e).imageError =
      some ((p.orElse (fun _ => e)).getD "Image generation failed") ∧
    (generateImagePending st).generatedImageUrl = st.generatedImageUrl ∧
    (webSearchRejected st p e).searchResults = [] ∧
    (webSearchRejected st p e).searchError =
      some ((p.orElse (fun _ => e)).getD "Search failed") ∧
    (webSearchRejected st p e).generatedImageUrl = st.generatedImageUrl ∧
    (webSearchPending st).searchResults = [] :=
  ⟨rfl, rfl, rfl, rfl, rfl, rfl, rfl, rfl⟩

/-- C8: when a send or regenerate stream rejects, the streaming pointer is
cleared and an error string recorded, while the conversation list — and with
it every message text, including partial streamed text — is left exactly as
it was. -/
theorem streamRejected_preserves_texts (st : ChatState) (e : Option String) :
    (sendChatMessageStreamRejected st e).conversations = st.conversations ∧
    (sendChatMessageStreamRejected st e).streamingMessageIndex = none ∧
    (sendChatMessageStreamRejected st e).error = some (jsOr e "Something went wrong") ∧
    (regenerateFromMessageRejected st e).conversations = st.conversations ∧
    (regenerateFromMessageRejected st e).streamingMessageIndex = none ∧
    (regenerateFromMessageRejected st e).error = some (jsOr e "Regeneration failed") :=
  ⟨rfl, rfl, rfl, rfl, rfl, rfl⟩

/-- C6: the first edit of a user message with original text `A` and no prior
edits seeds `edits` with the original text before pushing the new text: the
result has `edits = [A, B]`, `currentEditIndex = 1` and `text = B` (and the
conversation is truncated to the edited message). -/
theorem firstEdit_seeds_edits
    (st : ChatState) (cid : String) (L : List Conversation) (conv : Conversation)
    (R : List Conversation) (hA : ActiveDecomp st cid L conv R)
    (mid : String) (H : List Message) (u : Message) (T : List Message)
    (hM : MsgDecomp conv.messages mid H u T)
    (hed : u.edits = none)
    (now newText : String) (files : Option (List FileData)) :
    updateMessageAndTruncate st now mid newText files =
      { st with
        conversations := L ++
          { conv with
            messages := H ++ [Message.mk { u.core with
              edits := some [u.core.text, newText],
              currentEditIndex := some 1,
              text := newText,
              files := some (files.getD []),
              isEditing := some false,
              timestamp := now }],
            updatedAt := now } :: R } :=
  updateMessageAndTruncate_char_firstEdit st cid L conv R hA mid H u T hM hed now newText files

/-- Witness for C6: editing the message with text "A" to "B" in a concrete
two-message conversation yields `edits = ["A", "B"]`, `currentEditIndex = 1`
and `text = "B"`. -/
theorem firstEdit_seeds_edits_witness :
    (activeMsg? (updateMessageAndTruncate witnessConvState "t1" "u1" "B" none) 0).map
        (fun m => (m.edits, m.currentEditIndex, m.text)) =
      some (some ["A", "B"], some 1, "B") := by
  rw [firstEdit_seeds_edits witnessConvState "c1"
    [] { id := "c1", title := "T",
         messages := [plainUserMessage "u1" "A", freshBotMessage "b1" "t0" "reply1"],
         model := "m", createdAt := "t0", updatedAt := "t0" } []
    ⟨rfl, rfl, (fun c hc => absurd hc (List.not_mem_nil c)), rfl⟩
    "u1" [] (plainUserMessage "u1" "A") [freshBotMessage "b1" "t0" "reply1"]
    ⟨rfl, (fun m hm => absurd hm (List.not_mem_nil m)), rfl⟩
    rfl "t1" "B" none]
  rfl

/-- C9: calling `regenerateResponse` on a message at index 0, or on one whose
immediately preceding message is not a User message, takes the thunk error
path with the NoPromptFound message ('No user message found to regenerate
from') before any request is built, and the resulting dispatch pair
(`pending` then `rejected`) sets the error field while leaving the
conversation list — all messages — unchanged. -/
theorem regenerateResponse_noPrompt
    (st : ChatState) (cid : String) (L : List Conversation) (conv : Conversation)
    (R : List Conversation) (hA : ActiveDecomp st cid L conv R)
    (mid : String) (H : List Message) (u : Message) (T : List Message)
    (hM : MsgDecomp conv.messages mid H u T)
    (hprev : H = [] ∨ ∃ H0 prev, H = H0 ++ [prev] ∧ (prev.sender == Sender.User) = false) :
    regenerateResponseThunk st mid =
      Except.error "No user message found to regenerate from" ∧
    (regenerateResponseRejected (regenerateResponsePending st)
        (some "No user message found to regenerate from")).conversations =
      st.conversations ∧
    (regenerateResponseRejected (regenerateResponsePending st)
        (some "No user message found to regenerate from")).error =
      some "No user message found to regenerate from" ∧
    (regenerateResponseRejected (regenerateResponsePending st)
        (some "No user message found to regenerate from")).isLoading = false := by
  refine ⟨?_, rfl, rfl, rfl⟩
  have h0 : st.activeConversationId = some cid := hA.hA
  simp only [regenerateResponseThunk, h0, activeConv?_decomp hA, msg_findIndexOpt_decomp hM]
  rcases hprev with hnil | ⟨H0, prev, hH0, hps⟩
  · subst hnil
    rfl
  · subst hH0
    have hlen : (H0 ++ [prev]).length = H0.length + 1 := by simp
    rw [hlen, if_pos (Nat.succ_pos H0.length)]
    have hget : conv.messages.get? (H0.length + 1 - 1) = some prev := by
      rw [hM.hM, List.append_assoc]
      exact get?_append_mid H0 prev ([prev].tail ++ u :: T)
    rw [hget]
    have hbne : (prev.sender != Sender.User) = true := by
      simp [bne, hps]
    simp [hbne]

/-- Witness for C9: regenerating the bot message at index 0 of a concrete
conversation rejects with the NoPromptFound message and leaves the
conversation list unchanged. -/
theorem regenerateResponse_noPrompt_witness :
    regenerateResponseThunk botFirstState "b1" =
      Except.error "No user message found to regenerate from" ∧
    (regenerateResponseRejected (regenerateResponsePending botFirstState)
        (some "No user message found to regenerate from")).conversations =
      botFirstState.conversations ∧
    (regenerateResponseRejected (regenerateResponsePending botFirstState)
        (some "No user message found to regenerate from")).error =
      some "No user message found to regenerate from" ∧
    (regenerateResponseRejected (regenerateResponsePending botFirstState)
        (some "No user message found to regenerate from")).isLoading = false :=
  regenerateResponse_noPrompt botFirstState "c1"
    [] { id := "c1", title := "T",
         messages := [freshBotMessage "b1" "t0" "hello", plainUserMessage "u1" "q"],
         model := "m", createdAt := "t0", updatedAt := "t0" } []
    ⟨rfl, rfl, (fun c hc => absurd hc (List.not_mem_nil c)), rfl⟩
    "b1" [] (freshBotMessage "b1" "t0" "hello") [plainUserMessage "u1" "q"]
    ⟨rfl, (fun m hm => absurd hm (List.not_mem_nil m)), rfl⟩
    (Or.inl rfl)

theorem not_mem_singleton_id (x : Message) (mid : String) (hx : (x.id == mid) = false) :
    ∀ m ∈ [x], (m.id == mid) = false := by
  intro m hm
  rw [List.mem_singleton] at hm
  subst hm
  exact hx

/-- C7, counterexample: navigating responses with `currentResponseIndex`
undefined uses fallback 0, not `responses.length - 1` as the claim states:
with stored responses `["ra","rb","rc"]` and no index, `prev` lands on index
0 with text "ra", while the spec-side fallback rule would land on index 1. -/
theorem responseFallback_counterexample :
    ((activeMsg? (navigateResponseVersion (navBotState none) "t9" "b1" Direction.prev) 1).bind
        Message.currentResponseIndex) = some 0 ∧
    ((activeMsg? (navigateResponseVersion (navBotState none) "t9" "b1" Direction.prev) 1).map
        Message.text) = some "ra" ∧
    ((activeMsg? (navigateResponseSpecFallback (navBotState none) "t9" "b1" Direction.prev) 1).bind
        Message.currentResponseIndex) = some 1 ∧
    (some 0 : Option Nat) ≠ some 1 :=
  ⟨rfl, rfl, rfl, by decide⟩

/-- C7, amended: every prev/next navigation clamps at the boundary — `prev`
at index 0 stays at 0 and `next` at the last index stays there, for both
edit and response navigation — and an undefined tracking index falls back to
`edits.length - 1` for edit navigation but to `0` for response navigation
(`currentResponseIndex || 0` in the source), not to `length - 1` for both. -/
theorem navigation_clamps_and_fallbacks :
    (∀ (st : ChatState) (cid : String) (L : List Conversation) (conv : Conversation)
       (R : List Conversation) (hA : ActiveDecomp st cid L conv R)
       (mid : String) (H : List Message) (u : Message) (T : List Message)
       (hM : MsgDecomp conv.messages mid H u T)
       (rs : List String) (hrs : u.responses = some rs) (hlen : 2 ≤ rs.length)
       (hcri : u.currentResponseIndex = some 0) (now : String),
       navigateResponseVersion st now mid Direction.prev =
         { st with
           conversations := L ++
             { conv with
               messages := H ++ Message.mk { u.core with
                 currentResponseIndex := some 0,
                 text := rs.getD 0 "" } :: T,
               updatedAt := now } :: R }) ∧
    (∀ (st : ChatState) (cid : String) (L : List Conversation) (conv : Conversation)
       (R : List Conversation) (hA : ActiveDecomp st cid L conv R)
       (mid : String) (H : List Message) (u : Message) (T : List Message)
       (hM : MsgDecomp conv.messages mid H u T)
       (rs : List String) (hrs : u.responses = some rs) (hlen : 2 ≤ rs.length)
       (hcri : u.currentResponseIndex = some (rs.length - 1)) (now : String),
       navigateResponseVersion st now mid Direction.next =
         { st with
           conversations := L ++
             { conv with
               messages := H ++ Message.mk { u.core with
                 currentResponseIndex := some (rs.length - 1),
                 text := rs.getD (rs.length - 1) "" } :: T,
               updatedAt := now } :: R }) ∧
    (∀ (st : ChatState) (cid : String) (L : List Conversation) (conv : Conversation)
       (R : List Conversation) (hA : ActiveDecomp st cid L conv R)
       (mid : String) (H : List Message) (u : Message) (T : List Message)
       (hM : MsgDecomp conv.messages mid H u T)
       (es : List String) (hes : u.edits = some es) (hlen : 2 ≤ es.length)
       (hcei : u.currentEditIndex = some 0) (now : String),
       navigateUserEditVersion st now mid Direction.prev =
         { st with
           conversations := L ++
             { conv with
               messages := H ++ Message.mk { u.core with
                 currentEditIndex := some 0,
                 text := es.getD 0 "" } :: T,
               updatedAt := now } :: R }) ∧
    (∀ (st : ChatState) (cid : String) (L : List Conversation) (conv : Conversation)
       (R : List Conversation) (hA : ActiveDecomp st cid L conv R)
       (mid : String) (H : List Message) (u : Message) (T : List Message)
       (hM : MsgDecomp conv.messages mid H u T)
       (es : List String) (hes : u.edits = some es) (hlen : 2 ≤ es.length)
       (hcei : u.currentEditIndex = some (es.length - 1)) (now : String),
       navigateUserEditVersion st now mid Direction.next =
         { st with
           conversations := L ++
             { conv with
               messages := H ++ Message.mk { u.core with
                 currentEditIndex := some (es.length - 1),
                 text := es.getD (es.length - 1) "" } :: T,
               updatedAt := now } :: R }) ∧
    (∀ (st : ChatState) (cid : String) (L : List Conversation) (conv : Conversation)
       (R : List Conversation) (hA : ActiveDecomp st cid L conv R)
       (mid : String) (H : List Message) (u : Message) (T : List Message)
       (hM : MsgDecomp conv.messages mid H u T)
       (es : List String) (hes : u.edits = some es) (hlen : 2 ≤ es.length)
       (hcei : u.currentEditIndex = none) (now : String),
       navigateUserEditVersion st now mid Direction.prev =
         { st with
           conversations := L ++
             { conv with
               messages := H ++ Message.mk { u.core with
                 currentEditIndex := some (es.length - 2),
                 text := es.getD (es.length - 2) "" } :: T,
               updatedAt := now } :: R }) ∧
    (∀ (st : ChatState) (cid : String) (L : List Conversation) (conv : Conversation)
       (R : List Conversation) (hA : ActiveDecomp st cid L conv R)
       (mid : String) (H : List Message) (u : Message) (T : List Message)
       (hM : MsgDecomp conv.messages mid H u T)
       (rs : List String) (hrs : u.responses = some rs) (hlen : 2 ≤ rs.length)
       (hcri : u.currentResponseIndex = none) (now : String),
       navigateResponseVersion st now mid Direction.prev =
         { st with
           conversations := L ++
             { conv with
               messages := H ++ Message.mk { u.core with
                 currentResponseIndex := some 0,
                 text := rs.getD 0 "" } :: T,
               updatedAt := now } :: R }) := by
  refine ⟨?_, ?_, ?_, ?_, ?_, ?_⟩
  · intro st cid L conv R hA mid H u T hM rs hrs hlen hcri now
    exact navigateResponseVersion_char st cid L conv R hA mid H u T hM rs hrs hlen
      now Direction.prev 0 (by rw [hcri]; rfl)
  · intro st cid L conv R hA mid H u T hM rs hrs hlen hcri now
    refine navigateResponseVersion_char st cid L conv R hA mid H u T hM rs hrs hlen
      now Direction.next (rs.length - 1) ?_
    rw [hcri]
    exact (Nat.min_eq_left (Nat.le_succ _)).symm
  · intro st cid L conv R hA mid H u T hM es hes hlen hcei now
    exact navigateUserEditVersion_char st cid L conv R hA mid H u T hM es hes hlen
      now Direction.prev 0 (by rw [hcei]; rfl)
  · intro st cid L conv R hA mid H u T hM es hes hlen hcei now
    refine navigateUserEditVersion_char st cid L conv R hA mid H u T hM es hes hlen
      now Direction.next (es.length - 1) ?_
    rw [hcei]
    exact (Nat.min_eq_left (Nat.le_succ _)).symm
  · intro st cid L conv R hA mid H u T hM es hes hlen hcei now
    exact navigateUserEditVersion_char st cid L conv R hA mid H u T hM es hes hlen
      now Direction.prev (es.length - 2) (by rw [hcei]; rfl)
  · intro st cid L conv R hA mid H u T hM rs hrs hlen hcri now
    exact navigateResponseVersion_char st cid L conv R hA mid H u T hM rs hrs hlen
      now Direction.prev 0 (by rw [hcri]; rfl)

/-- Witness for C7, instantiating all six parts at concrete states: response
prev at index 0 stays at 0, response next at the last index stays there, the
same for edit navigation, edit fallback from an undefined index behaves as
from the last index, and response fallback from an undefined index behaves
as from index 0. -/
theorem navigation_clamps_and_fallbacks_witness :
    ((activeMsg? (navigateResponseVersion (navBotState (some 0)) "t9" "b1" Direction.prev) 1).bind
        Message.currentResponseIndex) = some 0 ∧
    ((activeMsg? (navigateResponseVersion (navBotState (some 2)) "t9" "b1" Direction.next) 1).bind
        Message.currentResponseIndex) = some 2 ∧
    ((activeMsg? (navigateUserEditVersion (navUserState (some 0)) "t9" "u1" Direction.prev) 0).bind
        Message.currentEditIndex) = some 0 ∧
    ((activeMsg? (navigateUserEditVersion (navUserState (some 2)) "t9" "u1" Direction.next) 0).bind
        Message.currentEditIndex) = some 2 ∧
    ((activeMsg? (navigateUserEditVersion (navUserState none) "t9" "u1" Direction.prev) 0).map
        (fun m => (m.currentEditIndex, m.text))) = some (some 1, "B") ∧
    ((activeMsg? (navigateResponseVersion (navBotState none) "t9" "b1" Direction.prev) 1).map
        (fun m => (m.currentResponseIndex, m.text))) = some (some 0, "ra") := by
  refine ⟨?_, ?_, ?_, ?_, ?_, ?_⟩
  · rw [navigation_clamps_and_fallbacks.1 (navBotState (some 0)) "c1"
      [] { id := "c1", title := "T",
           messages := [plainUserMessage "u0" "q", navBotMsg (some 0)],
           model := "m", createdAt := "t0", updatedAt := "t0" } []
      ⟨rfl, rfl, (fun c hc => absurd hc (List.not_mem_nil c)), rfl⟩
      "b1" [plainUserMessage "u0" "q"] (navBotMsg (some 0)) []
      ⟨rfl, not_mem_singleton_id (plainUserMessage "u0" "q") "b1" rfl, rfl⟩
      ["ra", "rb", "rc"] rfl (by decide) rfl "t9"]
    rfl
  · rw [navigation_clamps_and_fallbacks.2.1 (navBotState (some 2)) "c1"
      [] { id := "c1", title := "T",
           messages := [plainUserMessage "u0" "q", navBotMsg (some 2)],
           model := "m", createdAt := "t0", updatedAt := "t0" } []
      ⟨rfl, rfl, (fun c hc => absurd hc (List.not_mem_nil c)), rfl⟩
      "b1" [plainUserMessage "u0" "q"] (navBotMsg (some 2)) []
      ⟨rfl, not_mem_singleton_id (plainUserMessage "u0" "q") "b1" rfl, rfl⟩
      ["ra", "rb", "rc"] rfl (by decide) rfl "t9"]
    rfl
  · rw [navigation_clamps_and_fallbacks.2.2.1 (navUserState (some 0)) "c1"
      [] { id := "c1", title := "T", messages := [navUserMsg (some 0)],
           model := "m", createdAt := "t0", updatedAt := "t0" } []
      ⟨rfl, rfl, (fun c hc => absurd hc (List.not_mem_nil c)), rfl⟩
      "u1" [] (navUserMsg (some 0)) []
      ⟨rfl, (fun m hm => absurd hm (List.not_mem_nil m)), rfl⟩
      ["A", "B", "C"] rfl (by decide) rfl "t9"]
    rfl
  · rw [navigation_clamps_and_fallbacks.2.2.2.1 (navUserState (some 2)) "c1"
      [] { id := "c1", title := "T", messages := [navUserMsg (some 2)],
           model := "m", createdAt := "t0", updatedAt := "t0" } []
      ⟨rfl, rfl, (fun c hc => absurd hc (List.not_mem_nil c)), rfl⟩
      "u1" [] (navUserMsg (some 2)) []
      ⟨rfl, (fun m hm => absurd hm (List.not_mem_nil m)), rfl⟩
      ["A", "B", "C"] rfl (by decide) rfl "t9"]
    rfl
  · rw [navigation_clamps_and_fallbacks.2.2.2.2.1 (navUserState none) "c1"
      [] { id := "c1", title := "T", messages := [navUserMsg none],
           model := "m", createdAt := "t0", updatedAt := "t0" } []
      ⟨rfl, rfl, (fun c hc => absurd hc (List.not_mem_nil c)), rfl⟩
      "u1" [] (navUserMsg none) []
      ⟨rfl, (fun m hm => absurd hm (List.not_mem_nil m)), rfl⟩
      ["A", "B", "C"] rfl (by decide) rfl "t9"]
    rfl
  · rw [navigation_clamps_and_fallbacks.2.2.2.2.2 (navBotState none) "c1"
      [] { id := "c1", title := "T",
           messages := [plainUserMessage "u0" "q", navBotMsg none],
           model := "m", createdAt := "t0", updatedAt := "t0" } []
      ⟨rfl, rfl, (fun c hc => absurd hc (List.not_mem_nil c)), rfl⟩
      "b1" [plainUserMessage "u0" "q"] (navBotMsg none) []
      ⟨rfl, not_mem_singleton_id (plainUserMessage "u0" "q") "b1" rfl, rfl⟩
      ["ra", "rb", "rc"] rfl (by decide) rfl "t9"]
    rfl

/-- C3, counterexample: a second edit of an already-branched user message
does not archive the pre-edit tail.  In `grownTailState` the live tail after
`u1` is `[b1, u2]` (the conversation grew after the first regeneration), but
`regenerateFromMessage.pending` leaves `branches` at `[[b0]]` and truncates,
so the tail `[b1, u2]` is in no branch: the messages `b1` and `u2` are
permanently lost, contradicting the claim that every edit archives the
pre-edit tail before truncation. -/
theorem secondEdit_tail_not_archived :
    ((activeMsg? (regenerateFromMessagePending grownTailState "u1") 0).bind Message.branches).map
        (fun bs => bs.map (fun t => t.map Message.id)) = some [["b0"]] ∧
    ((activeConv? (regenerateFromMessagePending grownTailState "u1")).map
        (fun c => c.messages.map Message.id)) = some ["u1"] ∧
    ¬ (["b1", "u2"] ∈ ([["b0"]] : List (List String))) :=
  ⟨rfl, rfl, by decide⟩

/-- C3, amended: only an edit of a message that has no branches yet (the
first edit) archives the pre-edit tail, as branch 0, before truncation;
on later edits `regenerateFromMessage.pending` truncates without touching
the existing branches, so any messages appended after the last archived
branch was recorded are not recoverable. -/
theorem firstEdit_archives_tail
    (st : ChatState) (cid : String) (L : List Conversation) (conv : Conversation)
    (R : List Conversation) (hA : ActiveDecomp st cid L conv R)
    (mid : String) (H : List Message) (u : Message) (T : List Message)
    (hM : MsgDecomp conv.messages mid H u T)
    (hbr : u.branches = none) :
    regenerateFromMessagePending st mid =
      { st with
        isLoading := true, error := none,
        conversations := L ++
          { conv with
            messages := H ++ [Message.mk { u.core with
              branches := some [T],
              currentBranchIndex := some 0 }] } :: R } :=
  regenPending_first_spec st cid L conv R hA mid H u T hM hbr

/-- Witness for the amended C3: the first edit of the user message in a
concrete `[User, Bot]` conversation archives the bot reply as branch 0 and
truncates the conversation to the user message. -/
theorem firstEdit_archives_tail_witness :
    ((activeMsg? (regenerateFromMessagePending witnessConvState "u1") 0).bind Message.branches).map
        (fun bs => bs.map (fun t => t.map Message.id)) = some [["b1"]] ∧
    ((activeConv? (regenerateFromMessagePending witnessConvState "u1")).map
        (fun c => c.messages.map Message.id)) = some ["u1"] := by
  rw [firstEdit_archives_tail witnessConvState "c1"
    [] { id := "c1", title := "T",
         messages := [plainUserMessage "u1" "A", freshBotMessage "b1" "t0" "reply1"],
         model := "m", createdAt := "t0", updatedAt := "t0" } []
    ⟨rfl, rfl, (fun c hc => absurd hc (List.not_mem_nil c)), rfl⟩
    "u1" [] (plainUserMessage "u1" "A") [freshBotMessage "b1" "t0" "reply1"]
    ⟨rfl, (fun m hm => absurd hm (List.not_mem_nil m)), rfl⟩
    rfl]
  exact ⟨rfl, rfl⟩

set_option maxRecDepth 4000 in
/-- C2: the claimed invariant — at most one `isStreaming = true` message per
conversation, always last, always a bot — is violated on the code after a
stream failure followed by a new stream.  In `failedThenRestartedState`
(send, stream fails mid-flight, send again) the conversation has 4 messages,
two of them flagged streaming, and the failed bot message at index 1 — not
the last — still carries `isStreaming = true` with its partial text: the
rejected handler clears the pointer but never clears the flag. -/
theorem streamFailure_breaks_streaming_invariant :
    (activeConv? failedThenRestartedState).map streamingInvariantHolds = some false ∧
    (activeConv? failedThenRestartedState).map
        (fun c => (streamingFlagged c.messages).length) = some 2 ∧
    ((activeMsg? failedThenRestartedState 1).map
        (fun m => (m.isStreaming, m.text))) = some (some true, "par") ∧
    (activeConv? failedThenRestartedState).map (fun c => c.messages.length) = some 4 :=
  ⟨rfl, rfl, rfl, rfl⟩

/-- C4, counterexample: navigating the user message of `branchedState` to
branch 0 leaves the message text at "A2" instead of setting it to the edit
matching branch 0 ("A", as the spec-side `navigateBranchSpec` does): the
implementation never syncs the text during branch navigation. -/
theorem branchNavigation_no_text_sync :
    ((activeMsg? (handleNavigateUserEdit branchedState "t9" "u1" Direction.prev) 0).map
        Message.text) = some "A2" ∧
    ((activeConv? (handleNavigateUserEdit branchedState "t9" "u1" Direction.prev)).map
        (fun c => c.messages.map Message.id)) = some ["u1", "x"] ∧
    ((activeMsg? (navigateBranchSpec branchedState "t9" "u1" 0) 0).map
        Message.text) = some "A" ∧
    ("A2" : String) ≠ "A" :=
  ⟨rfl, rfl, rfl, by decide⟩

theorem branchNavigate_char
    (st : ChatState) (cid : String) (L : List Conversation) (conv : Conversation)
    (R : List Conversation) (hA : ActiveDecomp st cid L conv R)
    (mid : String) (H : List Message) (u : Message) (T : List Message)
    (hM : MsgDecomp conv.messages mid H u T)
    (bs : List (List Message)) (hbr : u.branches = some bs) (hblen : 1 < bs.length)
    (direction : Direction) (k : Nat)
    (hk : k = min (bs.length - 1) (match direction with
      | Direction.prev => u.currentBranchIndex.getD 0 - 1
      | Direction.next => u.currentBranchIndex.getD 0 + 1))
    (hkneq : k ≠ u.currentBranchIndex.getD 0)
    (now : String) :
    branchNavigate st now cid conv u mid direction =
      { st with
        conversations := L ++
          { conv with
            messages := (H ++ [u]) ++ (bs.get? k).getD [],
            updatedAt := now } :: R } := by
  simp only [branchNavigate, hbr]
  rw [if_pos hblen]
  rw [← hk]
  rw [if_pos hkneq]
  rw [setUserBranchIndex_char st cid L conv R hA mid H u T hM bs hbr k]
  simp only [msg_findIndexOpt_decomp hM]
  rw [hM.hM, take_append_mid]
  rw [replaceConversationTail_char
    { st with
      conversations := L ++
        { conv with
          messages :=
            H ++ Message.mk { u.core with currentBranchIndex := some k } :: T } :: R }
    cid L
    { conv with
      messages := H ++ Message.mk { u.core with currentBranchIndex := some k } :: T }
    R ⟨hA.hA, rfl, hA.hL, hA.hid⟩ now (H ++ [u]) ((bs.get? k).getD [])]

/-- C4, amended: when the hook takes its branch-navigation path (the message
has at most one recorded edit and more than one branch), navigating to
branch k rebuilds the live messages as `head ++ branches[k]` where `head =
messages[0..i]` taken from the pre-dispatch conversation — message i is left
exactly as it was: its text is not set to any edit, its `branches` array is
not mutated, and even the `currentBranchIndex` written by
`setUserBranchIndex` is immediately overwritten by the stale head. -/
theorem branchNavigation_stale_head
    (st : ChatState) (cid : String) (L : List Conversation) (conv : Conversation)
    (R : List Conversation) (hA : ActiveDecomp st cid L conv R)
    (mid : String) (H : List Message) (u : Message) (T : List Message)
    (hM : MsgDecomp conv.messages mid H u T)
    (hus : u.sender = Sender.User)
    (hedits : ∀ es, u.edits = some es → es.length ≤ 1)
    (bs : List (List Message)) (hbr : u.branches = some bs) (hblen : 1 < bs.length)
    (direction : Direction) (k : Nat)
    (hk : k = min (bs.length - 1) (match direction with
      | Direction.prev => u.currentBranchIndex.getD 0 - 1
      | Direction.next => u.currentBranchIndex.getD 0 + 1))
    (hkneq : k ≠ u.currentBranchIndex.getD 0)
    (now : String) :
    handleNavigateUserEdit st now mid direction =
      { st with
        conversations := L ++
          { conv with
            messages := (H ++ [u]) ++ (bs.get? k).getD [],
            updatedAt := now } :: R } := by
  have hne : st.conversations.isEmpty = false := by
    rw [hA.hC]
    cases L <;> rfl
  have hfind2 : conv.messages.find? (fun m => m.id == mid && m.sender == Sender.User) = some u := by
    rw [hM.hM]
    apply find?_append_first
    · intro m hm
      simp [hM.hH m hm]
    · simp [hM.hu, hus]
  simp only [handleNavigateUserEdit]
  rw [if_neg (by simp [hne])]
  simp only [hA.hA, activeConv?_decomp hA, hfind2]
  cases hes : u.edits with
  | none =>
    simp only [hes]
    rw [branchNavigate_char st cid L conv R hA mid H u T hM bs hbr hblen
      direction k hk hkneq now]
    rw [hA.hA]
  | some es =>
    have hle : ¬ (es.length > 1) := by
      have := hedits es hes
      omega
    simp only [hes]
    rw [if_neg hle]
    rw [branchNavigate_char st cid L conv R hA mid H u T hM bs hbr hblen
      direction k hk hkneq now]
    rw [hA.hA]

/-- Witness for the amended C4 at `branchedState`: navigating prev (to
branch 0) rebuilds the messages as the stale head plus branch 0; the user
message keeps text "A2", its two branches, and even its old
`currentBranchIndex` 1. -/
theorem branchNavigation_stale_head_witness :
    ((activeConv? (handleNavigateUserEdit branchedState "t9" "u1" Direction.prev)).map
        (fun c => c.messages.map Message.id)) = some ["u1", "x"] ∧
    ((activeMsg? (handleNavigateUserEdit branchedState "t9" "u1" Direction.prev) 0).map
        (fun m => (m.text, m.currentBranchIndex))) = some ("A2", some 1) ∧
    (((activeMsg? (handleNavigateUserEdit branchedState "t9" "u1" Direction.prev) 0).bind
        Message.branches).map List.length) = some 2 := by
  rw [branchNavigation_stale_head branchedState "c1"
    [] { id := "c1", title := "T",
         messages := [branchedUser, freshBotMessage "y" "t0" "tail1"],
         model := "m", createdAt := "t0", updatedAt := "t0" } []
    ⟨rfl, rfl, (fun c hc => absurd hc (List.not_mem_nil c)), rfl⟩
    "u1" [] branchedUser [freshBotMessage "y" "t0" "tail1"]
    ⟨rfl, (fun m hm => absurd hm (List.not_mem_nil m)), rfl⟩
    rfl
    (fun es hes => by
      have h : some ["A"] = some es := hes
      cases h
      decide)
    [[freshBotMessage "x" "t0" "tail0"], [freshBotMessage "y" "t0" "tail1"]] rfl (by decide)
    Direction.prev 0 rfl (by decide) "t9"]
  exact ⟨rfl, rfl, rfl⟩

/-- C1: editing/regenerating a user message whose continuation is `T` (first
edit: no branches yet) archives `T` as `branches[0]` in the `pending` phase,
before the new reply arrives; and after the full dispatch pipeline — truncate,
stream a fresh bot reply from `chunks`, finish — the `fulfilled` phase pushes
the freshly streamed tail (the single new bot message) as `branches[1]` and
sets `currentBranchIndex` to 1, landing the user on the newest branch. -/
theorem editRegenerate_branch_archive
    (st : ChatState) (cid : String) (L : List Conversation) (conv : Conversation)
    (R : List Conversation) (hA : ActiveDecomp st cid L conv R)
    (mid : String) (H : List Message) (u : Message) (T : List Message)
    (hM : MsgDecomp conv.messages mid H u T)
    (hbr : u.branches = none) (hed : u.edits = none)
    (now newId newText : String) (files : List FileData) (chunks : List String) :
    regenerateFromMessagePending st mid =
      { st with
        isLoading := true, error := none,
        conversations := L ++
          { conv with
            messages := H ++ [Message.mk { u.core with
              branches := some [T],
              currentBranchIndex := some 0 }] } :: R } ∧
    editRegenerate st now newId mid newText files chunks =
      some { st with
        isLoading := false, error := none, streamingMessageIndex := none,
        conversations := L ++
          { conv with
            messages := H ++
              [Message.mk { u.core with
                 text := newText,
                 files := some files,
                 isEditing := some false,
                 timestamp := now,
                 edits := some [u.core.text, newText],
                 currentEditIndex := some 1,
                 branches := some [T,
                   [Message.mk
                     { id := newId, sender := Sender.Bot, text := concatAll chunks,
                       files := none, isStreaming := some false, timestamp := now,
                       isEditing := none, responses := none, currentResponseIndex := none,
                       edits := none, currentEditIndex := none, branches := none,
                       currentBranchIndex := none }]],
                 currentBranchIndex := some 1 },
               Message.mk
                 { id := newId, sender := Sender.Bot, text := concatAll chunks,
                   files := none, isStreaming := some false, timestamp := now,
                   isEditing := none, responses := none, currentResponseIndex := none,
                   edits := none, currentEditIndex := none, branches := none,
                   currentBranchIndex := none }],
            updatedAt := now } :: R } := by
  have h1 : regenerateFromMessagePending st mid = c1Stage1 st L R conv H T u :=
    regenPending_first_spec st cid L conv R hA mid H u T hM hbr
  refine ⟨h1, ?_⟩
  have h2 : updateMessageAndTruncate (c1Stage1 st L R conv H T u) now mid newText
      (some files) = c1Stage2 st L R conv H T u now newText files :=
    updateMessageAndTruncate_char_firstEdit (c1Stage1 st L R conv H T u) cid L
      (c1Conv1 conv H T u) R ⟨hA.hA, rfl, hA.hL, hA.hid⟩
      mid H (c1ArchivedUser u T) [] ⟨rfl, hM.hH, hM.hu⟩ hed now newText (some files)
  have h3 : addBotMessage (c1Stage2 st L R conv H T u now newText files) now newId "" =
      c1Stage3 st L R conv H T u now newId newText files :=
    addBotMessage_char (c1Stage2 st L R conv H T u now newText files) cid L
      (c1Conv2 conv H T u now newText files) R ⟨hA.hA, rfl, hA.hL, hA.hid⟩ now newId ""
  have h4 : appendChunks (c1Stage3 st L R conv H T u now newId newText files) now chunks =
      c1Stage4 st L R conv H T u now newId newText files chunks :=
    appendChunks_char chunks now cid L R
      (c1Conv2 conv H T u now newText files).messages
      (c1Stage3 st L R conv H T u now newId newText files)
      (c1Conv3 conv H T u now newId newText files)
      (freshBotMessage newId now "")
      ⟨hA.hA, rfl, hA.hL, hA.hid⟩ rfl rfl
  have h5 : finishStreaming (c1Stage4 st L R conv H T u now newId newText files chunks)
      now = c1Stage5 st L R conv H T u now newId newText files chunks :=
    finishStreaming_char (c1Stage4 st L R conv H T u now newId newText files chunks)
      cid L (c1Conv4 conv H T u now newId newText files chunks) R
      ⟨hA.hA, rfl, hA.hL, hA.hid⟩
      (c1Conv2 conv H T u now newText files).messages
      (c1StreamedBot newId now chunks) []
      rfl rfl now
  have hM6 : MsgDecomp (c1Conv5 conv H T u now newId newText files chunks).messages mid
      H (c1EditedUser u T now newText files) [c1FinishedBot newId now chunks] := by
    refine ⟨?_, hM.hH, hM.hu⟩
    show (H ++ [c1EditedUser u T now newText files]) ++ [c1FinishedBot newId now chunks]
      = H ++ c1EditedUser u T now newText files :: [c1FinishedBot newId now chunks]
    simp
  have h6 := regenFulfilled_char
    (c1Stage5 st L R conv H T u now newId newText files chunks) cid L
    (c1Conv5 conv H T u now newId newText files chunks) R
    ⟨hA.hA, rfl, hA.hL, hA.hid⟩ mid H (c1EditedUser u T now newText files)
    [c1FinishedBot newId now chunks] hM6 [T] rfl
  simp only [editRegenerate]
  rw [h1, h2, h3, h4, h5, h6]
  rfl

/-- Witness for C1 on the spec's own example: editing the user message of
`[User "A", Bot "reply1"]` to "A2" with streamed chunks `["He", "y"]` leaves
`branches[0] = [Bot "reply1"]` after the pending phase, and the finished
pipeline ends with messages `[User "A2", Bot "Hey"]`,
`branches = [[reply1], [Hey]]` and `currentBranchIndex = 1`. -/
theorem editRegenerate_branch_archive_witness :
    (((activeMsg? (regenerateFromMessagePending witnessConvState "u1") 0).bind
        Message.branches).map (fun bs => bs.map (fun t => t.map Message.text)))
      = some [["reply1"]] ∧
    (editRegenerate witnessConvState "t9" "g1" "u1" "A2" [] ["He", "y"]).map
        (fun s => (activeConv? s).map (fun c => c.messages.map (fun m => (m.id, m.text))))
      = some (some [("u1", "A2"), ("g1", "Hey")]) ∧
    (editRegenerate witnessConvState "t9" "g1" "u1" "A2" [] ["He", "y"]).map
        (fun s => ((activeMsg? s 0).bind Message.branches).map
          (fun bs => bs.map (fun t => t.map Message.text)))
      = some (some [["reply1"], ["Hey"]]) ∧
    (editRegenerate witnessConvState "t9" "g1" "u1" "A2" [] ["He", "y"]).map
        (fun s => (activeMsg? s 0).bind Message.currentBranchIndex)
      = some (some 1) := by
  have h := editRegenerate_branch_archive witnessConvState "c1"
    [] { id := "c1", title := "T",
         messages := [plainUserMessage "u1" "A", freshBotMessage "b1" "t0" "reply1"],
         model := "m", createdAt := "t0", updatedAt := "t0" } []
    ⟨rfl, rfl, (fun c hc => absurd hc (List.not_mem_nil c)), rfl⟩
    "u1" [] (plainUserMessage "u1" "A") [freshBotMessage "b1" "t0" "reply1"]
    ⟨rfl, (fun m hm => absurd hm (List.not_mem_nil m)), rfl⟩
    rfl rfl "t9" "g1" "A2" [] ["He", "y"]
  rw [h.1, h.2]
  exact ⟨rfl, rfl, rfl, rfl⟩

end Chatbot
